import Mathlib

/-!
# AirMouse gesture-to-pointer control engine: a shallow embedding

This development models the per-frame control logic of the two engine
variants in this repository (`MainV1.py` with weighted-moving-average
smoothing, `mouse9.py` with adaptive move-duration smoothing) and proves
properties of the embedded code.

Modelling conventions:
* Python `float` arithmetic is modelled by exact rational arithmetic (`ℚ`).
* Python `int(x)` applied to a float truncates toward zero: `pyInt`.
* Python `round(x, 3)` rounds half-to-even at the third decimal: `pyRound3`.
* A Python `ZeroDivisionError` raised inside the frame loop (which would
  kill the worker thread, as nothing catches it) is modelled by `Option`:
  a frame step returning `none` is a crashed frame.
* `math.sqrt` is irrational, so the three pixel-scale inter-finger
  distances (`calculate_distance(..) * frame_width`) are carried as fields
  of the per-frame hand input rather than recomputed; every theorem
  quantifies over them.
-/

namespace AirMouse

/-- Python `int()` on a rational: truncation toward zero
(written with floors so that `norm_num` can evaluate it). -/
def pyInt (q : ℚ) : ℤ :=
  if 0 ≤ q then ⌊q⌋ else -⌊-q⌋

/-- Round a rational to the nearest integer, ties to even
(the rounding of Python 3's builtin `round`). -/
def roundHalfEven (q : ℚ) : ℤ :=
  let f := ⌊q⌋
  let r := q - (f : ℚ)
  if r < 1/2 then f
  else if 1/2 < r then f + 1
  else if f % 2 = 0 then f else f + 1

/-- Python `round(q, 3)`: round half-to-even at the third decimal place. -/
def pyRound3 (q : ℚ) : ℚ :=
  (roundHalfEven (q * 1000) : ℚ) / 1000

/-- Mouse button side. -/
inductive Side where
  | left
  | right
deriving DecidableEq, Repr

/-- The engine's output commands to the pointer-injection collaborator
(`pyautogui` calls in the source).  `moveTo` carries the duration hint
passed to `pyautogui.moveTo`. -/
inductive Command where
  | moveTo (x y : ℤ) (duration : ℚ)
  | scrollBy (amount : ℤ)
  | buttonDown (side : Side)
  | buttonUp (side : Side)
deriving DecidableEq, Repr

/-- The externally writable parameter set of `HandMouseController`
(the `__init__` fields that the sliders mutate).  Distance-like thresholds
are compared against float distances, hence `ℚ`; the scroll parameters are
Python ints. -/
structure Config where
  left_click_threshold : ℚ
  right_click_threshold : ℚ
  scroll_threshold : ℤ
  scroll_sensitivity : ℤ
  scroll_multiplier : ℤ
  margin : ℤ
  start_smooth_distance : ℚ
  min_distance : ℚ
  min_smoothing : ℚ
  max_smoothing : ℚ
deriving DecidableEq, Repr

/-- A landmark: a normalized point as produced by the detector
(the `z` component is never read by this core). -/
structure Landmark where
  x : ℚ
  y : ℚ
deriving DecidableEq, Repr

/-- The per-frame data of the detected hand that the engine reads: the
five landmarks it dereferences (ids 4, 8, 12, 6, 10) and the three
pixel-scale distances (`calculate_distance(p, q) * frame_width`) derived
from them.  The distances involve `math.sqrt`, so they enter the model as
inputs. -/
structure HandData where
  thumb_tip : Landmark
  index_tip : Landmark
  middle_tip : Landmark
  index_pip : Landmark
  middle_pip : Landmark
  thumb_index_dist : ℚ
  thumb_middle_dist : ℚ
  index_middle_dist : ℚ
deriving DecidableEq, Repr

/-- The `is_finger_extended` predicate: the tip's `y` is strictly smaller than the
proximal joint's `y` (tip higher on screen). -/
def is_finger_extended (tip pip : Landmark) : Bool :=
  decide (tip.y < pip.y)

/-- The scroll-mode condition of both variants:
`index_extended and middle_extended and fingers_close`, with
`fingers_close = close_dist < 30`. -/
def scrollCond (h : HandData) : Bool :=
  is_finger_extended h.index_tip h.index_pip &&
    is_finger_extended h.middle_tip h.middle_pip &&
    decide (h.index_middle_dist < 30)

/-- The ROI-to-screen mapping of the fingertip (`mouse9.py` lines 186–194,
`MainV1.py` lines 146–154): convert to frame pixels, clamp to the
margin-inset rectangle, rescale to screen space with `int()` truncation.
A zero-width or zero-height rectangle makes Python raise
`ZeroDivisionError`: modelled as `none`. -/
def mapToScreen (margin frameW frameH screenW screenH : ℤ) (tip : Landmark) :
    Option (ℤ × ℤ) :=
  let xMin : ℚ := (margin : ℚ)
  let yMin : ℚ := (margin : ℚ)
  let xMax : ℚ := ((frameW - margin : ℤ) : ℚ)
  let yMax : ℚ := ((frameH - margin : ℤ) : ℚ)
  let roiW : ℚ := xMax - xMin
  let roiH : ℚ := yMax - yMin
  let px : ℚ := max xMin (min xMax (tip.x * (frameW : ℚ)))
  let py : ℚ := max yMin (min yMax (tip.y * (frameH : ℚ)))
  if roiW = 0 then none
  else if roiH = 0 then none
  else some (pyInt ((px - xMin) / roiW * (screenW : ℚ)),
             pyInt ((py - yMin) / roiH * (screenH : ℚ)))

/-- One scroll-mode frame (`mouse9.py` lines 150–157, `MainV1.py` lines
132–139): compute `current_scroll_y`; when a previous y exists and the
delta clears the threshold with the engine enabled, emit the scroll
command; always store `current_scroll_y` as the new previous value.
`scroll_sensitivity` is divided by with Python true division then `int()`;
the UI constrains it to `≥ 1`, and the model's total rational division
agrees with Python everywhere that the divisor is nonzero. -/
def scrollFrame (cfg : Config) (enabled : Bool) (screenH : ℤ)
    (prev : Option ℤ) (indexTipY : ℚ) : Option ℤ × List Command :=
  let currentY : ℤ := pyInt (indexTipY * (screenH : ℚ))
  let cmds : List Command :=
    match prev with
    | none => []
    | some p =>
      let delta : ℤ := currentY - p
      if cfg.scroll_threshold < |delta| ∧ enabled = true then
        [Command.scrollBy
          (-(pyInt ((delta : ℚ) / (cfg.scroll_sensitivity : ℚ)) * cfg.scroll_multiplier))]
      else []
  (some currentY, cmds)

/-- The left-button machine of both variants (`mouse9.py` lines 209–218,
`MainV1.py` lines 163–172). -/
def leftButtonStep (cfg : Config) (enabled : Bool) (down : Bool)
    (thumbIndexDist : ℚ) : Bool × List Command :=
  if thumbIndexDist < cfg.left_click_threshold then
    if down = false ∧ enabled = true then (true, [Command.buttonDown Side.left])
    else (down, [])
  else
    if down = true ∧ enabled = true then (false, [Command.buttonUp Side.left])
    else (down, [])

/-- The right-button machine of both variants (`mouse9.py` lines 220–231,
`MainV1.py` lines 174–185). -/
def rightButtonStep (cfg : Config) (enabled : Bool) (down : Bool)
    (thumbIndexDist thumbMiddleDist indexMiddleDist : ℚ) : Bool × List Command :=
  if thumbIndexDist < cfg.right_click_threshold ∧
      thumbMiddleDist < cfg.right_click_threshold ∧
      indexMiddleDist < cfg.right_click_threshold then
    if down = false ∧ enabled = true then (true, [Command.buttonDown Side.right])
    else (down, [])
  else
    if down = true ∧ enabled = true then (false, [Command.buttonUp Side.right])
    else (down, [])

/-- The adaptive smoothing factor of `mouse9.py` (lines 170–181).  Note
that the first branch assigns the literal `0.01`, not `self.min_smoothing`.
The interpolation divides by `start_smooth_distance - min_distance`;
rational division is total (`x / 0 = 0`) whereas Python would raise on a
zero denominator — every theorem below assumes
`min_distance < start_smooth_distance` (the spec's Config invariant),
where the two semantics agree. -/
def adaptiveSmoothing (cfg : Config) (thumbIndexDist : ℚ) : ℚ :=
  let s : ℚ :=
    if cfg.start_smooth_distance < thumbIndexDist then 1/100
    else if thumbIndexDist < cfg.min_distance then cfg.max_smoothing
    else
      pyRound3 (cfg.min_smoothing +
        (cfg.start_smooth_distance - thumbIndexDist) /
            (cfg.start_smooth_distance - cfg.min_distance) *
          (cfg.max_smoothing - cfg.min_smoothing))
  max cfg.min_smoothing (min cfg.max_smoothing s)

/-- The `smooth_coordinates` method of `MainV1.py` (lines 71–83): append to the
15-slot deque (oldest evicted on overflow), take the `1..n`
recency-weighted mean (Python float division then `int()`), clamp to the
screen bounds.  Returns the output coordinate and the updated queue. -/
def smooth_coordinates (screenW screenH : ℤ) (queue : List (ℤ × ℤ))
    (newX newY : ℤ) : (ℤ × ℤ) × List (ℤ × ℤ) :=
  let q1 := queue ++ [(newX, newY)]
  let q := if 15 < q1.length then q1.drop (q1.length - 15) else q1
  if q.length = 0 then ((newX, newY), q)
  else
    let weights : List ℤ := (List.range q.length).map (fun (i : ℕ) => (i : ℤ) + 1)
    let sumWeights : ℤ := weights.sum
    let sumX : ℤ := ((q.zip weights).map (fun pw => pw.1.1 * pw.2)).sum
    let sumY : ℤ := ((q.zip weights).map (fun pw => pw.1.2 * pw.2)).sum
    let avgX : ℤ := pyInt ((sumX : ℚ) / (sumWeights : ℚ))
    let avgY : ℤ := pyInt ((sumY : ℚ) / (sumWeights : ℚ))
    ((max 0 (min (screenW - 1) avgX), max 0 (min (screenH - 1) avgY)), q)

/-- Mutable per-frame engine state of the `MainV1.py` variant. -/
structure StateA where
  left_button_down : Bool
  right_button_down : Bool
  scroll_y_prev : Option ℤ
  scroll_mode : Bool
  smooth_queue : List (ℤ × ℤ)
deriving DecidableEq, Repr

/-- Mutable per-frame engine state of the `mouse9.py` variant
(no positional history). -/
structure StateB where
  left_button_down : Bool
  right_button_down : Bool
  scroll_y_prev : Option ℤ
  scroll_mode : Bool
deriving DecidableEq, Repr

/-- One frame of the `MainV1.py` engine loop (lines 113–185), from the
detector result to the emitted commands.  `hand = none` models an
absent-hand frame; a `none` result models an uncaught `ZeroDivisionError`
in the ROI mapping, which would terminate the worker thread. -/
def frameStepA (cfg : Config) (enabled : Bool)
    (frameW frameH screenW screenH : ℤ)
    (hand : Option HandData) (s : StateA) : Option (StateA × List Command) :=
  match hand with
  | none => some (s, [])
  | some h =>
    let (scrollMode, prev, scrollCmds) :=
      if scrollCond h then
        let pc := scrollFrame cfg enabled screenH s.scroll_y_prev h.index_tip.y
        (true, pc.1, pc.2)
      else (false, (none : Option ℤ), ([] : List Command))
    let moveRes : Option (List (ℤ × ℤ) × List Command) :=
      if scrollMode then some (s.smooth_queue, [])
      else
        match mapToScreen cfg.margin frameW frameH screenW screenH h.index_tip with
        | none => none
        | some (mx, my) =>
          let cq := smooth_coordinates screenW screenH s.smooth_queue mx my
          some (cq.2,
            if enabled then [Command.moveTo cq.1.1 cq.1.2 (1/1000)] else [])
    match moveRes with
    | none => none
    | some (queue, moveCmds) =>
      let ld := leftButtonStep cfg enabled s.left_button_down h.thumb_index_dist
      let rd := rightButtonStep cfg enabled s.right_button_down
        h.thumb_index_dist h.thumb_middle_dist h.index_middle_dist
      some ({ left_button_down := ld.1, right_button_down := rd.1,
              scroll_y_prev := prev, scroll_mode := scrollMode,
              smooth_queue := queue },
            scrollCmds ++ moveCmds ++ ld.2 ++ rd.2)

/-- One frame of the `mouse9.py` engine loop (lines 131–231).  Identical
control flow to `frameStepA` except that no positional history is kept and
the move command carries the adaptive smoothing factor as its duration. -/
def frameStepB (cfg : Config) (enabled : Bool)
    (frameW frameH screenW screenH : ℤ)
    (hand : Option HandData) (s : StateB) : Option (StateB × List Command) :=
  match hand with
  | none => some (s, [])
  | some h =>
    let (scrollMode, prev, scrollCmds) :=
      if scrollCond h then
        let pc := scrollFrame cfg enabled screenH s.scroll_y_prev h.index_tip.y
        (true, pc.1, pc.2)
      else (false, (none : Option ℤ), ([] : List Command))
    let smoothing := adaptiveSmoothing cfg h.thumb_index_dist
    let moveRes : Option (List Command) :=
      if scrollMode then some []
      else
        match mapToScreen cfg.margin frameW frameH screenW screenH h.index_tip with
        | none => none
        | some (mx, my) =>
          some (if enabled then [Command.moveTo mx my smoothing] else [])
    match moveRes with
    | none => none
    | some moveCmds =>
      let ld := leftButtonStep cfg enabled s.left_button_down h.thumb_index_dist
      let rd := rightButtonStep cfg enabled s.right_button_down
        h.thumb_index_dist h.thumb_middle_dist h.index_middle_dist
      some ({ left_button_down := ld.1, right_button_down := rd.1,
              scroll_y_prev := prev, scroll_mode := scrollMode },
            scrollCmds ++ moveCmds ++ ld.2 ++ rd.2)

/-- The initial configuration of `mouse9.py` (`__init__` defaults). -/
def exampleConfig : Config :=
  { left_click_threshold := 30, right_click_threshold := 30,
    scroll_threshold := 5, scroll_sensitivity := 1, scroll_multiplier := 4,
    margin := 100, start_smooth_distance := 200, min_distance := 60,
    min_smoothing := 1/100, max_smoothing := 1/20 }

/-- A configuration differing from the defaults only in `min_smoothing`,
still satisfying the spec's Config invariant. -/
def counterConfig : Config :=
  { exampleConfig with min_smoothing := 1/200 }

/-- Per-frame command trace of the left-button machine over a list of
thumb–index distances. -/
def buttonTrace (cfg : Config) (enabled : Bool) (down : Bool) :
    List ℚ → List (List Command)
  | [] => []
  | d :: ds =>
    let r := leftButtonStep cfg enabled down d
    r.2 :: buttonTrace cfg enabled r.1 ds

/-! ## Concrete frame inputs for witnesses and the degenerate-frame claim -/

/-- A concrete hand: all tips at the frame center, fingers not extended
(pip joints above the tips), all pairwise pixel distances `100`. -/
def exampleHand : HandData :=
  { thumb_tip := ⟨1/2, 1/2⟩, index_tip := ⟨1/2, 1/2⟩, middle_tip := ⟨1/2, 1/2⟩,
    index_pip := ⟨1/2, 2/5⟩, middle_pip := ⟨1/2, 2/5⟩,
    thumb_index_dist := 100, thumb_middle_dist := 100,
    index_middle_dist := 100 }

/-- The initial engine state of the `MainV1.py` variant. -/
def stateA0 : StateA :=
  { left_button_down := false, right_button_down := false,
    scroll_y_prev := none, scroll_mode := false, smooth_queue := [] }

/-- The state after one centered frame of the `MainV1.py` variant. -/
def stateA1 : StateA :=
  { left_button_down := false, right_button_down := false,
    scroll_y_prev := none, scroll_mode := false,
    smooth_queue := [(960, 540)] }

/-- The initial engine state of the `mouse9.py` variant. -/
def stateB0 : StateB :=
  { left_button_down := false, right_button_down := false,
    scroll_y_prev := none, scroll_mode := false }

/-! ## Arithmetic helper lemmas -/

lemma pyInt_intCast (n : ℤ) : pyInt (n : ℚ) = n := by
  unfold pyInt
  split_ifs with h
  · exact Int.floor_intCast n
  · have hcast : ((-n : ℤ) : ℚ) = -(n : ℚ) := by push_cast; ring
    rw [← hcast, Int.floor_intCast]; ring

lemma pyInt_of_nonneg {q : ℚ} (h : 0 ≤ q) : pyInt q = ⌊q⌋ := if_pos h

lemma pyInt_nonneg {q : ℚ} (h : 0 ≤ q) : 0 ≤ pyInt q := by
  rw [pyInt_of_nonneg h]
  exact Int.floor_nonneg.mpr h

lemma pyInt_le_of_le {q : ℚ} {n : ℤ} (h0 : 0 ≤ q) (h : q ≤ (n : ℚ)) :
    pyInt q ≤ n := by
  rw [pyInt_of_nonneg h0]
  calc ⌊q⌋ ≤ ⌊(n : ℚ)⌋ := Int.floor_le_floor h
    _ = n := Int.floor_intCast n

lemma pyInt_eq_zero {q : ℚ} (h : |q| < 1) : pyInt q = 0 := by
  rcases abs_lt.mp h with ⟨h1, h2⟩
  unfold pyInt
  split_ifs with h0
  · exact Int.floor_eq_zero_iff.mpr (Set.mem_Ico.mpr ⟨h0, h2⟩)
  · have hneg : ⌊-q⌋ = 0 :=
      Int.floor_eq_zero_iff.mpr (Set.mem_Ico.mpr ⟨by linarith, by linarith⟩)
    rw [hneg]; ring

/-- Bounds of one axis of the ROI mapping: clamp into `[lo, hi]`, rescale
by `(· - lo) / (hi - lo) * S`, truncate. -/
lemma pyInt_ratio_mul_bounds (lo hi t : ℚ) (S : ℤ) (hlohi : lo < hi)
    (hS : 0 ≤ S) :
    0 ≤ pyInt ((max lo (min hi t) - lo) / (hi - lo) * (S : ℚ)) ∧
      pyInt ((max lo (min hi t) - lo) / (hi - lo) * (S : ℚ)) ≤ S := by
  set p := max lo (min hi t) with hp
  have h1 : lo ≤ p := le_max_left _ _
  have h2 : p ≤ hi := max_le (le_of_lt hlohi) (min_le_left _ _)
  have hd : 0 < hi - lo := by linarith
  have hS' : (0 : ℚ) ≤ (S : ℚ) := by exact_mod_cast hS
  have hr0 : 0 ≤ (p - lo) / (hi - lo) := div_nonneg (by linarith) (le_of_lt hd)
  have hr1 : (p - lo) / (hi - lo) ≤ 1 := by
    rw [div_le_one hd]; linarith
  have hval0 : 0 ≤ (p - lo) / (hi - lo) * (S : ℚ) := mul_nonneg hr0 hS'
  have hval1 : (p - lo) / (hi - lo) * (S : ℚ) ≤ (S : ℚ) :=
    mul_le_of_le_one_left hS' hr1
  exact ⟨pyInt_nonneg hval0, pyInt_le_of_le hval0 hval1⟩

/-! ## C1: range of the coordinate mapper -/

/-- C1 (amended): for every fingertip position, when the sensing rectangle
is non-degenerate (positive width and height) and the screen dimensions are
positive, the mapper succeeds and its output lies within
`[0, screenWidth] × [0, screenHeight]` — the upper bounds `screenWidth` and
`screenHeight` themselves are attainable (see the counterexample), so the
claimed range `[0, screenWidth-1] × [0, screenHeight-1]` is off by one at
the far edges. -/
theorem claim1_mapper_bounds (margin frameW frameH screenW screenH : ℤ)
    (tip : Landmark) (hw : 0 < frameW - 2 * margin)
    (hh : 0 < frameH - 2 * margin) (hsw : 0 ≤ screenW) (hsh : 0 ≤ screenH) :
    ∃ mx my, mapToScreen margin frameW frameH screenW screenH tip = some (mx, my) ∧
      0 ≤ mx ∧ mx ≤ screenW ∧ 0 ≤ my ∧ my ≤ screenH := by
  have hxlt : ((margin : ℤ) : ℚ) < ((frameW - margin : ℤ) : ℚ) := by
    have : (0 : ℚ) < ((frameW : ℤ) : ℚ) - 2 * ((margin : ℤ) : ℚ) := by
      exact_mod_cast hw
    push_cast
    linarith
  have hylt : ((margin : ℤ) : ℚ) < ((frameH - margin : ℤ) : ℚ) := by
    have : (0 : ℚ) < ((frameH : ℤ) : ℚ) - 2 * ((margin : ℤ) : ℚ) := by
      exact_mod_cast hh
    push_cast
    linarith
  have hx := pyInt_ratio_mul_bounds ((margin : ℤ) : ℚ) ((frameW - margin : ℤ) : ℚ)
    (tip.x * ((frameW : ℤ) : ℚ)) screenW hxlt hsw
  have hy := pyInt_ratio_mul_bounds ((margin : ℤ) : ℚ) ((frameH - margin : ℤ) : ℚ)
    (tip.y * ((frameH : ℤ) : ℚ)) screenH hylt hsh
  refine ⟨_, _, ?_, hx.1, hx.2, hy.1, hy.2⟩
  simp only [mapToScreen]
  rw [if_neg (by linarith), if_neg (by linarith)]

/-- C1 counterexample: the fingertip at the far corner of the frame
(normalized `(1, 1)`, frame `640 × 480`, margin `100`, screen
`1920 × 1080`) maps to exactly `(1920, 1080)`, which is outside
`[0, 1919] × [0, 1079]`. -/
theorem claim1_counterexample :
    mapToScreen 100 640 480 1920 1080 ⟨1, 1⟩ = some (1920, 1080) ∧
      ¬ ((1920 : ℤ) ≤ 1920 - 1) ∧ ¬ ((1080 : ℤ) ≤ 1080 - 1) := by
  refine ⟨?_, by norm_num, by norm_num⟩
  norm_num [mapToScreen, pyInt, min_def, max_def]

/-- C1 witness: the center scenario — fingertip `(0.5, 0.5)` with frame
`640 × 480`, margin `100`, screen `1920 × 1080` stays within bounds. -/
theorem claim1_witness :
    ∃ mx my, mapToScreen 100 640 480 1920 1080 ⟨1/2, 1/2⟩ = some (mx, my) ∧
      0 ≤ mx ∧ mx ≤ 1920 ∧ 0 ≤ my ∧ my ≤ 1080 :=
  claim1_mapper_bounds 100 640 480 1920 1080 ⟨1/2, 1/2⟩ (by decide) (by decide)
    (by decide) (by decide)

/-! ## Properties of the adaptive smoothing factor -/

lemma adaptive_high (cfg : Config) {d : ℚ} (h : cfg.start_smooth_distance < d) :
    adaptiveSmoothing cfg d =
      max cfg.min_smoothing (min cfg.max_smoothing (1/100)) := by
  simp only [adaptiveSmoothing]
  rw [if_pos h]

lemma adaptive_low (cfg : Config) {d : ℚ} (hlt : d < cfg.min_distance)
    (hmm : cfg.min_distance < cfg.start_smooth_distance)
    (h3 : cfg.min_smoothing ≤ cfg.max_smoothing) :
    adaptiveSmoothing cfg d = cfg.max_smoothing := by
  simp only [adaptiveSmoothing]
  rw [if_neg (by linarith), if_pos hlt, min_self, max_eq_right h3]

lemma adaptive_interp (cfg : Config) {d : ℚ} (h1 : cfg.min_distance ≤ d)
    (h2 : d ≤ cfg.start_smooth_distance) :
    adaptiveSmoothing cfg d =
      max cfg.min_smoothing (min cfg.max_smoothing (pyRound3 (cfg.min_smoothing +
        (cfg.start_smooth_distance - d) /
            (cfg.start_smooth_distance - cfg.min_distance) *
          (cfg.max_smoothing - cfg.min_smoothing)))) := by
  simp only [adaptiveSmoothing]
  rw [if_neg (not_lt.mpr h2), if_neg (not_lt.mpr h1)]

lemma adaptive_ge_min (cfg : Config) (d : ℚ) :
    cfg.min_smoothing ≤ adaptiveSmoothing cfg d := by
  simp only [adaptiveSmoothing]
  exact le_max_left _ _

lemma adaptive_le_max (cfg : Config) (d : ℚ)
    (h3 : cfg.min_smoothing ≤ cfg.max_smoothing) :
    adaptiveSmoothing cfg d ≤ cfg.max_smoothing := by
  simp only [adaptiveSmoothing]
  exact max_le h3 (min_le_left _ _)

lemma roundHalfEven_mono {x y : ℚ} (hxy : x ≤ y) :
    roundHalfEven x ≤ roundHalfEven y := by
  have hf : ⌊x⌋ ≤ ⌊y⌋ := Int.floor_le_floor hxy
  rcases eq_or_lt_of_le hf with heq | hlt
  · simp only [roundHalfEven]
    rw [← heq]
    split_ifs <;> linarith
  · simp only [roundHalfEven]
    split_ifs <;> linarith

lemma pyRound3_mono {x y : ℚ} (h : x ≤ y) : pyRound3 x ≤ pyRound3 y := by
  unfold pyRound3
  have h2 : roundHalfEven (x * 1000) ≤ roundHalfEven (y * 1000) :=
    roundHalfEven_mono (by linarith)
  have h3 : ((roundHalfEven (x * 1000) : ℤ) : ℚ) ≤
      ((roundHalfEven (y * 1000) : ℤ) : ℚ) := by exact_mod_cast h2
  linarith

/-! ## C3: the adaptive smoothing formula -/

/-- C3 counterexample: with `min_smoothing = 0.005` (a configuration
meeting all the claim's constraints), a distance above
`start_smooth_distance` yields the clamped literal `0.01`, not
`min_smoothing`: the first branch of the source assigns `smoothing = 0.01`
rather than `self.min_smoothing`. -/
theorem claim3_counterexample :
    (0 < counterConfig.start_smooth_distance ∧
      counterConfig.min_distance < counterConfig.start_smooth_distance ∧
      counterConfig.min_smoothing ≤ counterConfig.max_smoothing) ∧
    counterConfig.start_smooth_distance < 300 ∧
    adaptiveSmoothing counterConfig 300 = 1/100 ∧
    (1/100 : ℚ) ≠ counterConfig.min_smoothing := by
  norm_num [adaptiveSmoothing, counterConfig, exampleConfig, min_def, max_def]

/-- C3 (amended): the factor is the clamp into
`[min_smoothing, max_smoothing]` of: the literal `0.01` when
`dist > start_smooth_distance` (not `min_smoothing` in general — they
coincide only when `min_smoothing = 0.01`); `max_smoothing` (after the
clamp simplifies away) when `dist < min_distance`; otherwise the linear
interpolation rounded half-to-even to 3 decimals.  In particular the
spec's scenario `start=200, min=60, minS=0.01, maxS=0.05, dist=130`
gives `0.03`. -/
theorem claim3_amended (cfg : Config) (dist : ℚ)
    (h1 : 0 < cfg.start_smooth_distance)
    (h2 : cfg.min_distance < cfg.start_smooth_distance)
    (h3 : cfg.min_smoothing ≤ cfg.max_smoothing) :
    (cfg.start_smooth_distance < dist →
      adaptiveSmoothing cfg dist =
        max cfg.min_smoothing (min cfg.max_smoothing (1/100))) ∧
    (dist < cfg.min_distance → adaptiveSmoothing cfg dist = cfg.max_smoothing) ∧
    (cfg.min_distance ≤ dist → dist ≤ cfg.start_smooth_distance →
      adaptiveSmoothing cfg dist =
        max cfg.min_smoothing (min cfg.max_smoothing (pyRound3 (cfg.min_smoothing +
          (cfg.start_smooth_distance - dist) /
              (cfg.start_smooth_distance - cfg.min_distance) *
            (cfg.max_smoothing - cfg.min_smoothing))))) ∧
    adaptiveSmoothing exampleConfig 130 = 3/100 := by
  refine ⟨fun h => adaptive_high cfg h, fun h => adaptive_low cfg h h2 h3,
    fun ha hb => adaptive_interp cfg ha hb, ?_⟩
  norm_num [adaptiveSmoothing, exampleConfig, pyRound3, roundHalfEven,
    min_def, max_def]

/-- C3 witness: the amended claim instantiated at the default `mouse9.py`
configuration and the spec's scenario distance `130`. -/
theorem claim3_witness :
    0 < exampleConfig.start_smooth_distance ∧
    exampleConfig.min_distance < exampleConfig.start_smooth_distance ∧
    exampleConfig.min_smoothing ≤ exampleConfig.max_smoothing ∧
    adaptiveSmoothing exampleConfig 130 = 3/100 :=
  ⟨by norm_num [exampleConfig], by norm_num [exampleConfig],
   by norm_num [exampleConfig],
   (claim3_amended exampleConfig 130 (by norm_num [exampleConfig])
     (by norm_num [exampleConfig]) (by norm_num [exampleConfig])).2.2.2⟩

/-! ## C7: monotonicity and pinning of the smoothing factor -/

/-- C7 counterexample: with `min_smoothing = 0.005` (all the spec's Config
constraints hold), the factor at distance `200` is `0.005` but at distance
`300` it is `0.01`: the factor *increases* across `start_smooth_distance`,
so it is not monotonically non-increasing, and above
`start_smooth_distance` it does not equal `min_smoothing`. -/
theorem claim7_counterexample :
    (counterConfig.min_distance < counterConfig.start_smooth_distance ∧
      counterConfig.min_smoothing ≤ counterConfig.max_smoothing) ∧
    (200 : ℚ) ≤ 300 ∧
    adaptiveSmoothing counterConfig 200 = 1/200 ∧
    adaptiveSmoothing counterConfig 300 = 1/100 ∧
    ¬ (adaptiveSmoothing counterConfig 300 ≤ adaptiveSmoothing counterConfig 200) ∧
    adaptiveSmoothing counterConfig 300 ≠ counterConfig.min_smoothing := by
  norm_num [adaptiveSmoothing, counterConfig, exampleConfig, pyRound3,
    roundHalfEven, min_def, max_def]

/-- C7 (amended): for configurations with `0.01 ≤ min_smoothing` (the
default is exactly `0.01`, and neither settings window exposes
`min_smoothing`), the factor is monotonically non-increasing in the
thumb–index distance and is pinned to `max_smoothing` below `min_distance`
and to `min_smoothing` above `start_smooth_distance`.  For
`min_smoothing < 0.01` the hard-coded `0.01` in the first branch breaks
both properties (see the counterexample). -/
theorem claim7_amended (cfg : Config)
    (h2 : cfg.min_distance < cfg.start_smooth_distance)
    (h3 : cfg.min_smoothing ≤ cfg.max_smoothing)
    (h4 : 1/100 ≤ cfg.min_smoothing) :
    (∀ d1 d2 : ℚ, d1 ≤ d2 →
      adaptiveSmoothing cfg d2 ≤ adaptiveSmoothing cfg d1) ∧
    (∀ d : ℚ, d < cfg.min_distance →
      adaptiveSmoothing cfg d = cfg.max_smoothing) ∧
    (∀ d : ℚ, cfg.start_smooth_distance < d →
      adaptiveSmoothing cfg d = cfg.min_smoothing) := by
  have hpinHigh : ∀ d : ℚ, cfg.start_smooth_distance < d →
      adaptiveSmoothing cfg d = cfg.min_smoothing := by
    intro d hd
    rw [adaptive_high cfg hd, min_eq_right (le_trans h4 h3), max_eq_left h4]
  refine ⟨?_, fun d hd => adaptive_low cfg hd h2 h3, hpinHigh⟩
  intro d1 d2 h12
  rcases lt_or_le cfg.start_smooth_distance d2 with hd2 | hd2
  · rw [hpinHigh d2 hd2]
    exact adaptive_ge_min cfg d1
  · rcases lt_or_le d2 cfg.min_distance with hd2' | hd2'
    · rw [adaptive_low cfg hd2' h2 h3,
        adaptive_low cfg (lt_of_le_of_lt h12 hd2') h2 h3]
    · rcases lt_or_le d1 cfg.min_distance with hd1 | hd1
      · rw [adaptive_low cfg hd1 h2 h3]
        exact adaptive_le_max cfg d2 h3
      · rw [adaptive_interp cfg hd1 (le_trans h12 hd2),
          adaptive_interp cfg hd2' hd2]
        apply max_le_max (le_refl _)
        apply min_le_min (le_refl _)
        apply pyRound3_mono
        have hden : 0 < cfg.start_smooth_distance - cfg.min_distance := by
          linarith
        have hdel : 0 ≤ cfg.max_smoothing - cfg.min_smoothing := by linarith
        have hrat : (cfg.start_smooth_distance - d2) /
              (cfg.start_smooth_distance - cfg.min_distance) ≤
            (cfg.start_smooth_distance - d1) /
              (cfg.start_smooth_distance - cfg.min_distance) :=
          (div_le_div_iff_of_pos_right hden).mpr (by linarith)
        nlinarith [mul_le_mul_of_nonneg_right hrat hdel]

/-- C7 witness: the amended claim applied at the default configuration,
showing the factor at distance `300` is at most the factor at `100`. -/
theorem claim7_witness :
    exampleConfig.min_distance < exampleConfig.start_smooth_distance ∧
    exampleConfig.min_smoothing ≤ exampleConfig.max_smoothing ∧
    (1/100 : ℚ) ≤ exampleConfig.min_smoothing ∧
    adaptiveSmoothing exampleConfig 300 ≤ adaptiveSmoothing exampleConfig 100 :=
  ⟨by norm_num [exampleConfig], by norm_num [exampleConfig],
   by norm_num [exampleConfig],
   (claim7_amended exampleConfig (by norm_num [exampleConfig])
     (by norm_num [exampleConfig]) (by norm_num [exampleConfig])).1 100 300
     (by norm_num)⟩

/-! ## C8: the weighted-average filter on a constant stream -/

lemma zip_replicate_left {α β : Type} (l : List β) (a : α) :
    (List.replicate l.length a).zip l = l.map (Prod.mk a) := by
  induction l with
  | nil => rfl
  | cons b t ih => simp [List.replicate_succ, ih]

lemma weighted_fst_sum_const (c1 c2 : ℤ) (ws : List ℤ) (n : ℕ)
    (hn : n = ws.length) :
    (((List.replicate n (c1, c2)).zip ws).map
      (fun pw : (ℤ × ℤ) × ℤ => pw.1.1 * pw.2)).sum = c1 * ws.sum := by
  subst hn
  rw [zip_replicate_left, List.map_map]
  have heq : ((fun pw : (ℤ × ℤ) × ℤ => pw.1.1 * pw.2) ∘ Prod.mk (c1, c2)) =
      fun w : ℤ => c1 * w := rfl
  rw [heq]
  simpa using List.sum_map_mul_left ws (fun w : ℤ => w) c1

lemma weighted_snd_sum_const (c1 c2 : ℤ) (ws : List ℤ) (n : ℕ)
    (hn : n = ws.length) :
    (((List.replicate n (c1, c2)).zip ws).map
      (fun pw : (ℤ × ℤ) × ℤ => pw.1.2 * pw.2)).sum = c2 * ws.sum := by
  subst hn
  rw [zip_replicate_left, List.map_map]
  have heq : ((fun pw : (ℤ × ℤ) × ℤ => pw.1.2 * pw.2) ∘ Prod.mk (c1, c2)) =
      fun w : ℤ => c2 * w := rfl
  rw [heq]
  simpa using List.sum_map_mul_left ws (fun w : ℤ => w) c2

/-- C8: the weighted-moving-average filter is the identity on a constant
stream.  With the 15-slot history filled with an in-bounds coordinate
`(c1, c2)` and that same coordinate fed again, the output is exactly
`(c1, c2)` and the history is again 15 copies of it (so the output stays
`(c1, c2)` on every later frame); and with an empty history the filter
returns the unsmoothed input. -/
theorem claim8_smoothing_identity (screenW screenH c1 c2 : ℤ)
    (h1 : 0 ≤ c1) (h2 : c1 ≤ screenW - 1) (h3 : 0 ≤ c2) (h4 : c2 ≤ screenH - 1) :
    smooth_coordinates screenW screenH (List.replicate 15 (c1, c2)) c1 c2 =
      ((c1, c2), List.replicate 15 (c1, c2)) ∧
    (smooth_coordinates screenW screenH [] c1 c2).1 = (c1, c2) := by
  constructor
  · have hq1 : List.replicate 15 (c1, c2) ++ [(c1, c2)] =
        List.replicate 16 (c1, c2) := (List.replicate_succ' 15 (c1, c2)).symm
    have hdrop : (List.replicate 16 ((c1 : ℤ), (c2 : ℤ))).drop (16 - 15) =
        List.replicate 15 (c1, c2) := by
      rw [List.replicate_succ]
      rfl
    simp only [smooth_coordinates, hq1, List.length_replicate]
    rw [if_pos (show 15 < 16 by norm_num), hdrop, List.length_replicate,
      if_neg (show ¬ (15 = 0) by norm_num)]
    have hws : ((List.range 15).map (fun (i : ℕ) => (i : ℤ) + 1)).sum = 120 := by
      decide
    rw [weighted_fst_sum_const c1 c2 _ 15 (by decide),
        weighted_snd_sum_const c1 c2 _ 15 (by decide), hws]
    have hx : pyInt (((c1 * 120 : ℤ) : ℚ) / ((120 : ℤ) : ℚ)) = c1 := by
      push_cast
      rw [mul_div_assoc, div_self (by norm_num : (120 : ℚ) ≠ 0), mul_one,
        pyInt_intCast]
    have hy : pyInt (((c2 * 120 : ℤ) : ℚ) / ((120 : ℤ) : ℚ)) = c2 := by
      push_cast
      rw [mul_div_assoc, div_self (by norm_num : (120 : ℚ) ≠ 0), mul_one,
        pyInt_intCast]
    rw [hx, hy, min_eq_right h2, max_eq_right h1, min_eq_right h4,
      max_eq_right h3]
  · simp only [smooth_coordinates, List.nil_append, List.length_singleton]
    rw [if_neg (show ¬ (15 < 1) by norm_num)]
    simp only [List.length_singleton]
    rw [if_neg (show ¬ (1 = 0) by norm_num)]
    have hw1 : (List.range 1).map (fun (i : ℕ) => (i : ℤ) + 1) = [1] := by
      decide
    simp only [hw1, List.zip_cons_cons, List.zip_nil_right, List.map_cons,
      List.map_nil, List.sum_cons, List.sum_nil, mul_one, add_zero,
      Int.cast_one, div_one, pyInt_intCast]
    rw [min_eq_right h2, max_eq_right h1, min_eq_right h4, max_eq_right h3]

/-- C8 witness: the identity at the screen-center coordinate on a
`1920 × 1080` screen. -/
theorem claim8_witness :
    smooth_coordinates 1920 1080 (List.replicate 15 (960, 540)) 960 540 =
      ((960, 540), List.replicate 15 (960, 540)) ∧
    (smooth_coordinates 1920 1080 [] 960 540).1 = (960, 540) :=
  claim8_smoothing_identity 1920 1080 960 540 (by decide) (by decide)
    (by decide) (by decide)

/-! ## C4: the left-button machine is edge-triggered -/

/-- C4: while enabled (and a hand is present, which is what makes
`leftButtonStep` run), the post-frame state is Down exactly when
`thumb_index_dist < left_click_threshold`, a `ButtonDown(left)` is emitted
exactly on an Up-to-Down transition, a `ButtonUp(left)` exactly on a
Down-to-Up transition, and nothing otherwise; and the spec's scenario
`[50, 50, 20, 20, 50]` with threshold `30` yields exactly
`ButtonDown(left)` on frame 3 and `ButtonUp(left)` on frame 5. -/
theorem claim4_left_button :
    (∀ (cfg : Config) (down : Bool) (d : ℚ),
      leftButtonStep cfg true down d =
        (decide (d < cfg.left_click_threshold),
          if down = decide (d < cfg.left_click_threshold) then []
          else if d < cfg.left_click_threshold then [Command.buttonDown Side.left]
          else [Command.buttonUp Side.left])) ∧
    buttonTrace exampleConfig true false [50, 50, 20, 20, 50] =
      [[], [], [Command.buttonDown Side.left], [], [Command.buttonUp Side.left]] := by
  constructor
  · intro cfg down d
    unfold leftButtonStep
    by_cases hd : d < cfg.left_click_threshold <;> cases down <;> simp [hd]
  · norm_num [buttonTrace, leftButtonStep, exampleConfig]

/-! ## C5: the scroll controller -/

/-- C5: on every scroll-mode frame the new `scroll_y_prev` is the current
vertical position; when a previous value exists, a scroll command of amount
`-(trunc(delta / scroll_sensitivity)) * scroll_multiplier` (division
truncated before multiplying) is emitted exactly when
`|delta| > scroll_threshold` and the engine is enabled; and on any frame of
either engine where a hand is present but the scroll gesture does not hold,
`scroll_y_prev` is reset to absent. -/
theorem claim5_scroll_controller :
    (∀ (cfg : Config) (enabled : Bool) (screenH : ℤ) (prev : Option ℤ) (y : ℚ),
      (scrollFrame cfg enabled screenH prev y).1 =
        some (pyInt (y * (screenH : ℚ)))) ∧
    (∀ (cfg : Config) (enabled : Bool) (screenH p : ℤ) (y : ℚ),
      cfg.scroll_threshold < |pyInt (y * (screenH : ℚ)) - p| → enabled = true →
      (scrollFrame cfg enabled screenH (some p) y).2 =
        [Command.scrollBy
          ((-(pyInt (((pyInt (y * (screenH : ℚ)) - p : ℤ) : ℚ) /
              (cfg.scroll_sensitivity : ℚ)))) * cfg.scroll_multiplier)]) ∧
    (∀ (cfg : Config) (enabled : Bool) (screenH p : ℤ) (y : ℚ),
      ¬ (cfg.scroll_threshold < |pyInt (y * (screenH : ℚ)) - p| ∧
          enabled = true) →
      (scrollFrame cfg enabled screenH (some p) y).2 = []) ∧
    (∀ (cfg : Config) (enabled : Bool) (screenH : ℤ) (y : ℚ),
      (scrollFrame cfg enabled screenH none y).2 = []) ∧
    (∀ (cfg : Config) (enabled : Bool) (frameW frameH screenW screenH : ℤ)
      (h : HandData) (s s' : StateA) (cmds : List Command),
      scrollCond h = false →
      frameStepA cfg enabled frameW frameH screenW screenH (some h) s =
        some (s', cmds) →
      s'.scroll_y_prev = none) ∧
    (∀ (cfg : Config) (enabled : Bool) (frameW frameH screenW screenH : ℤ)
      (h : HandData) (s s' : StateB) (cmds : List Command),
      scrollCond h = false →
      frameStepB cfg enabled frameW frameH screenW screenH (some h) s =
        some (s', cmds) →
      s'.scroll_y_prev = none) := by
  refine ⟨?_, ?_, ?_, ?_, ?_, ?_⟩
  · intro cfg enabled screenH prev y
    cases prev <;> rfl
  · intro cfg enabled screenH p y h1 h2
    simp only [scrollFrame]
    rw [if_pos ⟨h1, h2⟩, neg_mul]
  · intro cfg enabled screenH p y hno
    simp only [scrollFrame]
    rw [if_neg hno]
  · intro cfg enabled screenH y
    rfl
  · intro cfg enabled fw fh sw sh h s s' cmds hcond hstep
    simp only [frameStepA, hcond] at hstep
    cases hmap : mapToScreen cfg.margin fw fh sw sh h.index_tip with
    | none => simp [hmap] at hstep
    | some mxy =>
      obtain ⟨mx, my⟩ := mxy
      simp only [hmap, Bool.false_eq_true, if_false, Option.some.injEq] at hstep
      obtain ⟨rfl, rfl⟩ := hstep
      rfl
  · intro cfg enabled fw fh sw sh h s s' cmds hcond hstep
    simp only [frameStepB, hcond] at hstep
    cases hmap : mapToScreen cfg.margin fw fh sw sh h.index_tip with
    | none => simp [hmap] at hstep
    | some mxy =>
      obtain ⟨mx, my⟩ := mxy
      simp only [hmap, Bool.false_eq_true, if_false, Option.some.injEq] at hstep
      obtain ⟨rfl, rfl⟩ := hstep
      rfl

/-- C5 witness: default configuration, screen height 1080, previous y `0`,
fingertip at normalized y `7/1080`: delta `7` clears the threshold `5` and
the emitted command is `ScrollBy(-28)` (`trunc(7/1) * 4`, negated). -/
theorem claim5_witness :
    exampleConfig.scroll_threshold < |pyInt ((7/1080 : ℚ) * (1080 : ℚ)) - 0| ∧
    (scrollFrame exampleConfig true 1080 (some 0) (7/1080)).2 =
      [Command.scrollBy (-28)] := by
  refine ⟨by norm_num [pyInt, exampleConfig], ?_⟩
  rw [claim5_scroll_controller.2.1 exampleConfig true 1080 0 (7/1080)
    (by norm_num [pyInt, exampleConfig]) rfl]
  norm_num [pyInt, exampleConfig]

/-! ## C10: zero-amount scroll commands are emitted -/

/-- C10: on an enabled scroll-mode frame with a previous y, whenever
`scroll_threshold < |delta| < scroll_sensitivity`, the truncated quotient
is `0`, so a scroll command is still emitted and its amount is exactly
`0` — the emission is not suppressed for a zero amount. -/
theorem claim10_zero_scroll (cfg : Config) (enabled : Bool) (screenH p : ℤ)
    (y : ℚ) (hsens : 0 < cfg.scroll_sensitivity)
    (hthr : cfg.scroll_threshold < |pyInt (y * (screenH : ℚ)) - p|)
    (hlt : |pyInt (y * (screenH : ℚ)) - p| < cfg.scroll_sensitivity)
    (hen : enabled = true) :
    (scrollFrame cfg enabled screenH (some p) y).2 = [Command.scrollBy 0] := by
  simp only [scrollFrame]
  rw [if_pos ⟨hthr, hen⟩]
  have h0 : pyInt (((pyInt (y * (screenH : ℚ)) - p : ℤ) : ℚ) /
      (cfg.scroll_sensitivity : ℚ)) = 0 := by
    apply pyInt_eq_zero
    rw [abs_div, abs_of_pos (show (0:ℚ) < (cfg.scroll_sensitivity : ℚ) by
      exact_mod_cast hsens)]
    rw [div_lt_one (by exact_mod_cast hsens)]
    exact_mod_cast hlt
  rw [h0]
  norm_num

/-- C10 witness: sensitivity raised to `10` via the settings slider,
delta `7` (threshold `5`): the command `ScrollBy(0)` is emitted. -/
theorem claim10_witness :
    ((0 : ℤ) < ({ exampleConfig with scroll_sensitivity := 10 } : Config).scroll_sensitivity) ∧
    ({ exampleConfig with scroll_sensitivity := 10 } : Config).scroll_threshold <
        |pyInt ((7/1080 : ℚ) * (1080 : ℚ)) - 0| ∧
    |pyInt ((7/1080 : ℚ) * (1080 : ℚ)) - 0| <
        ({ exampleConfig with scroll_sensitivity := 10 } : Config).scroll_sensitivity ∧
    (scrollFrame { exampleConfig with scroll_sensitivity := 10 } true 1080
        (some 0) (7/1080)).2 = [Command.scrollBy 0] :=
  ⟨by norm_num [exampleConfig], by norm_num [pyInt, exampleConfig],
   by norm_num [pyInt, exampleConfig],
   claim10_zero_scroll _ true 1080 0 (7/1080) (by norm_num [exampleConfig])
     (by norm_num [pyInt, exampleConfig]) (by norm_num [pyInt, exampleConfig])
     rfl⟩

/-! ## Command-count helper lemmas for the frame steps -/

lemma scrollFrame_count_button (cfg : Config) (e : Bool) (sh : ℤ)
    (prev : Option ℤ) (y : ℚ) (sd : Side) :
    (scrollFrame cfg e sh prev y).2.count (Command.buttonDown sd) = 0 ∧
    (scrollFrame cfg e sh prev y).2.count (Command.buttonUp sd) = 0 := by
  cases prev with
  | none => exact ⟨rfl, rfl⟩
  | some p =>
    simp only [scrollFrame]
    split_ifs <;> simp

lemma leftButtonStep_counts (cfg : Config) (e down : Bool) (d : ℚ) :
    ((leftButtonStep cfg e down d).2.count (Command.buttonDown Side.left) =
      if down = false ∧ (leftButtonStep cfg e down d).1 = true then 1 else 0) ∧
    ((leftButtonStep cfg e down d).2.count (Command.buttonUp Side.left) =
      if down = true ∧ (leftButtonStep cfg e down d).1 = false then 1 else 0) ∧
    ((leftButtonStep cfg e down d).2.count (Command.buttonDown Side.right) = 0) ∧
    ((leftButtonStep cfg e down d).2.count (Command.buttonUp Side.right) = 0) := by
  unfold leftButtonStep
  split_ifs with h1 h2 h3 <;> cases down <;> simp_all

lemma rightButtonStep_counts (cfg : Config) (e down : Bool) (d1 d2 d3 : ℚ) :
    ((rightButtonStep cfg e down d1 d2 d3).2.count (Command.buttonDown Side.right) =
      if down = false ∧ (rightButtonStep cfg e down d1 d2 d3).1 = true then 1
      else 0) ∧
    ((rightButtonStep cfg e down d1 d2 d3).2.count (Command.buttonUp Side.right) =
      if down = true ∧ (rightButtonStep cfg e down d1 d2 d3).1 = false then 1
      else 0) ∧
    ((rightButtonStep cfg e down d1 d2 d3).2.count (Command.buttonDown Side.left) = 0) ∧
    ((rightButtonStep cfg e down d1 d2 d3).2.count (Command.buttonUp Side.left) = 0) := by
  unfold rightButtonStep
  split_ifs with h1 h2 h3 <;> cases down <;> simp_all

lemma moveIte_count_button (b : Bool) (x y : ℤ) (dur : ℚ) (sd : Side) :
    ((if b = true then [Command.moveTo x y dur] else []).count
      (Command.buttonDown sd) = 0) ∧
    ((if b = true then [Command.moveTo x y dur] else []).count
      (Command.buttonUp sd) = 0) := by
  cases b <;> simp

lemma leftButtonStep_disabled (cfg : Config) (down : Bool) (d : ℚ) :
    leftButtonStep cfg false down d = (down, []) := by
  simp [leftButtonStep]

lemma rightButtonStep_disabled (cfg : Config) (down : Bool) (d1 d2 d3 : ℚ) :
    rightButtonStep cfg false down d1 d2 d3 = (down, []) := by
  simp [rightButtonStep]

lemma scrollFrame_disabled (cfg : Config) (sh : ℤ) (prev : Option ℤ) (y : ℚ) :
    (scrollFrame cfg false sh prev y).2 = [] := by
  cases prev <;> simp [scrollFrame]

/-! ## C6: disabled engine / absent hand leaves button state alone -/

/-- C6: on a frame with no detected hand the step returns the state
unchanged with no commands at all; on a frame with a hand but the engine
disabled, both button flags keep their previous values and no
`ButtonDown`/`ButtonUp` command is emitted — in particular a Down flag is
carried over, never forced to Up.  Proved for both engine variants. -/
theorem claim6_gating :
    (∀ (cfg : Config) (e : Bool) (fw fh sw sh : ℤ) (s : StateA),
      frameStepA cfg e fw fh sw sh none s = some (s, [])) ∧
    (∀ (cfg : Config) (e : Bool) (fw fh sw sh : ℤ) (s : StateB),
      frameStepB cfg e fw fh sw sh none s = some (s, [])) ∧
    (∀ (cfg : Config) (fw fh sw sh : ℤ) (h : HandData) (s s' : StateA)
      (cmds : List Command),
      frameStepA cfg false fw fh sw sh (some h) s = some (s', cmds) →
      s'.left_button_down = s.left_button_down ∧
      s'.right_button_down = s.right_button_down ∧
      ∀ sd : Side, Command.buttonDown sd ∉ cmds ∧ Command.buttonUp sd ∉ cmds) ∧
    (∀ (cfg : Config) (fw fh sw sh : ℤ) (h : HandData) (s s' : StateB)
      (cmds : List Command),
      frameStepB cfg false fw fh sw sh (some h) s = some (s', cmds) →
      s'.left_button_down = s.left_button_down ∧
      s'.right_button_down = s.right_button_down ∧
      ∀ sd : Side, Command.buttonDown sd ∉ cmds ∧ Command.buttonUp sd ∉ cmds) := by
  refine ⟨fun cfg e fw fh sw sh s => rfl, fun cfg e fw fh sw sh s => rfl, ?_, ?_⟩
  · intro cfg fw fh sw sh h s s' cmds hstep
    cases hcond : scrollCond h with
    | true =>
      simp only [frameStepA, hcond, if_true, scrollFrame_disabled,
        leftButtonStep_disabled, rightButtonStep_disabled, if_false,
        Bool.false_eq_true, Option.some.injEq] at hstep
      obtain ⟨rfl, rfl⟩ := hstep
      exact ⟨rfl, rfl, fun sd => by simp⟩
    | false =>
      cases hmap : mapToScreen cfg.margin fw fh sw sh h.index_tip with
      | none =>
        simp only [frameStepA, hcond, hmap, Bool.false_eq_true, if_false] at hstep
        exact absurd hstep (by simp)
      | some mxy =>
        obtain ⟨mx, my⟩ := mxy
        simp only [frameStepA, hcond, hmap, scrollFrame_disabled,
          leftButtonStep_disabled, rightButtonStep_disabled, if_false,
          Bool.false_eq_true, Option.some.injEq] at hstep
        obtain ⟨rfl, rfl⟩ := hstep
        exact ⟨rfl, rfl, fun sd => by simp⟩
  · intro cfg fw fh sw sh h s s' cmds hstep
    cases hcond : scrollCond h with
    | true =>
      simp only [frameStepB, hcond, if_true, scrollFrame_disabled,
        leftButtonStep_disabled, rightButtonStep_disabled, if_false,
        Bool.false_eq_true, Option.some.injEq] at hstep
      obtain ⟨rfl, rfl⟩ := hstep
      exact ⟨rfl, rfl, fun sd => by simp⟩
    | false =>
      cases hmap : mapToScreen cfg.margin fw fh sw sh h.index_tip with
      | none =>
        simp only [frameStepB, hcond, hmap, Bool.false_eq_true, if_false] at hstep
        exact absurd hstep (by simp)
      | some mxy =>
        obtain ⟨mx, my⟩ := mxy
        simp only [frameStepB, hcond, hmap, scrollFrame_disabled,
          leftButtonStep_disabled, rightButtonStep_disabled, if_false,
          Bool.false_eq_true, Option.some.injEq] at hstep
        obtain ⟨rfl, rfl⟩ := hstep
        exact ⟨rfl, rfl, fun sd => by simp⟩

lemma scrollCond_exampleHand : scrollCond exampleHand = false := by
  norm_num [scrollCond, is_finger_extended, exampleHand]

lemma frameStepA_center_eval :
    frameStepA exampleConfig true 640 480 1920 1080 (some exampleHand) stateA0 =
      some (stateA1, [Command.moveTo 960 540 (1/1000)]) := by
  have hmap : mapToScreen exampleConfig.margin 640 480 1920 1080
      exampleHand.index_tip = some (960, 540) := by
    norm_num [mapToScreen, exampleConfig, exampleHand, pyInt, min_def, max_def]
  simp only [frameStepA, scrollCond_exampleHand, Bool.false_eq_true, if_false,
    hmap]
  norm_num [smooth_coordinates, leftButtonStep, rightButtonStep, exampleConfig,
    exampleHand, stateA0, stateA1, pyInt, min_def, max_def, List.range_succ]

/-! ## C9: button flags change iff exactly one command is emitted -/

/-- C9: on every non-crashing frame of either variant, the number of
emitted `ButtonDown`/`ButtonUp` commands of each side is `1` exactly when
the corresponding flag makes the matching transition (`ButtonDown` on a
False-to-True change, `ButtonUp` on a True-to-False change) and `0`
otherwise — so each flag always equals the cumulative effect of the button
commands emitted so far. -/
theorem claim9_button_invariant :
    (∀ (cfg : Config) (e : Bool) (fw fh sw sh : ℤ) (hand : Option HandData)
      (s s' : StateA) (cmds : List Command),
      frameStepA cfg e fw fh sw sh hand s = some (s', cmds) →
      (cmds.count (Command.buttonDown Side.left) =
        if s.left_button_down = false ∧ s'.left_button_down = true then 1
        else 0) ∧
      (cmds.count (Command.buttonUp Side.left) =
        if s.left_button_down = true ∧ s'.left_button_down = false then 1
        else 0) ∧
      (cmds.count (Command.buttonDown Side.right) =
        if s.right_button_down = false ∧ s'.right_button_down = true then 1
        else 0) ∧
      (cmds.count (Command.buttonUp Side.right) =
        if s.right_button_down = true ∧ s'.right_button_down = false then 1
        else 0)) ∧
    (∀ (cfg : Config) (e : Bool) (fw fh sw sh : ℤ) (hand : Option HandData)
      (s s' : StateB) (cmds : List Command),
      frameStepB cfg e fw fh sw sh hand s = some (s', cmds) →
      (cmds.count (Command.buttonDown Side.left) =
        if s.left_button_down = false ∧ s'.left_button_down = true then 1
        else 0) ∧
      (cmds.count (Command.buttonUp Side.left) =
        if s.left_button_down = true ∧ s'.left_button_down = false then 1
        else 0) ∧
      (cmds.count (Command.buttonDown Side.right) =
        if s.right_button_down = false ∧ s'.right_button_down = true then 1
        else 0) ∧
      (cmds.count (Command.buttonUp Side.right) =
        if s.right_button_down = true ∧ s'.right_button_down = false then 1
        else 0)) := by
  constructor
  · intro cfg e fw fh sw sh hand s s' cmds hstep
    cases hand with
    | none =>
      simp only [frameStepA, Option.some.injEq] at hstep
      obtain ⟨rfl, rfl⟩ := hstep
      simp
    | some h =>
      have hl := leftButtonStep_counts cfg e s.left_button_down h.thumb_index_dist
      have hr := rightButtonStep_counts cfg e s.right_button_down
        h.thumb_index_dist h.thumb_middle_dist h.index_middle_dist
      cases hcond : scrollCond h with
      | true =>
        have hsf := scrollFrame_count_button cfg e sh s.scroll_y_prev
          h.index_tip.y
        simp only [frameStepA, hcond, if_true, Option.some.injEq] at hstep
        obtain ⟨rfl, rfl⟩ := hstep
        refine ⟨?_, ?_, ?_, ?_⟩ <;>
          simp [List.count_append, (hsf Side.left).1, (hsf Side.left).2,
            (hsf Side.right).1, (hsf Side.right).2, hl.1, hl.2.1, hl.2.2.1,
            hl.2.2.2, hr.1, hr.2.1, hr.2.2.1, hr.2.2.2]
      | false =>
        cases hmap : mapToScreen cfg.margin fw fh sw sh h.index_tip with
        | none =>
          simp only [frameStepA, hcond, hmap, Bool.false_eq_true, if_false]
            at hstep
          exact absurd hstep (by simp)
        | some mxy =>
          obtain ⟨mx, my⟩ := mxy
          have hmv := moveIte_count_button e
            (smooth_coordinates sw sh s.smooth_queue mx my).1.1
            (smooth_coordinates sw sh s.smooth_queue mx my).1.2 (1/1000)
          simp only [one_div] at hmv
          simp only [frameStepA, hcond, hmap, Bool.false_eq_true, if_false,
            Option.some.injEq] at hstep
          obtain ⟨rfl, rfl⟩ := hstep
          refine ⟨?_, ?_, ?_, ?_⟩ <;>
            simp [List.count_append, (hmv Side.left).1, (hmv Side.left).2,
              (hmv Side.right).1, (hmv Side.right).2, hl.1, hl.2.1, hl.2.2.1,
              hl.2.2.2, hr.1, hr.2.1, hr.2.2.1, hr.2.2.2]
  · intro cfg e fw fh sw sh hand s s' cmds hstep
    cases hand with
    | none =>
      simp only [frameStepB, Option.some.injEq] at hstep
      obtain ⟨rfl, rfl⟩ := hstep
      simp
    | some h =>
      have hl := leftButtonStep_counts cfg e s.left_button_down h.thumb_index_dist
      have hr := rightButtonStep_counts cfg e s.right_button_down
        h.thumb_index_dist h.thumb_middle_dist h.index_middle_dist
      cases hcond : scrollCond h with
      | true =>
        have hsf := scrollFrame_count_button cfg e sh s.scroll_y_prev
          h.index_tip.y
        simp only [frameStepB, hcond, if_true, Option.some.injEq] at hstep
        obtain ⟨rfl, rfl⟩ := hstep
        refine ⟨?_, ?_, ?_, ?_⟩ <;>
          simp [List.count_append, (hsf Side.left).1, (hsf Side.left).2,
            (hsf Side.right).1, (hsf Side.right).2, hl.1, hl.2.1, hl.2.2.1,
            hl.2.2.2, hr.1, hr.2.1, hr.2.2.1, hr.2.2.2]
      | false =>
        cases hmap : mapToScreen cfg.margin fw fh sw sh h.index_tip with
        | none =>
          simp only [frameStepB, hcond, hmap, Bool.false_eq_true, if_false]
            at hstep
          exact absurd hstep (by simp)
        | some mxy =>
          obtain ⟨mx, my⟩ := mxy
          have hmv := moveIte_count_button e mx my
            (adaptiveSmoothing cfg h.thumb_index_dist)
          simp only [frameStepB, hcond, hmap, Bool.false_eq_true, if_false,
            Option.some.injEq] at hstep
          obtain ⟨rfl, rfl⟩ := hstep
          refine ⟨?_, ?_, ?_, ?_⟩ <;>
            simp [List.count_append, (hmv Side.left).1, (hmv Side.left).2,
              (hmv Side.right).1, (hmv Side.right).2, hl.1, hl.2.1, hl.2.2.1,
              hl.2.2.2, hr.1, hr.2.1, hr.2.2.1, hr.2.2.2]

/-! ## C2: degenerate sensing rectangle -/

/-- C2 (code bug): with a `200 × 200` camera frame and the default margin
`100`, the sensing rectangle has zero width and height; on a hand-present
non-scroll frame the engine does *not* fail closed — both variants hit the
unguarded division by `roi_w` and the `ZeroDivisionError` (modelled as
`none`) propagates out of the frame, terminating the worker thread,
instead of merely suppressing the move command. -/
theorem claim2_degenerate_crash :
    frameStepA exampleConfig true 200 200 1920 1080 (some exampleHand) stateA0 =
      none ∧
    frameStepB exampleConfig true 200 200 1920 1080 (some exampleHand) stateB0 =
      none := by
  have hmap : mapToScreen exampleConfig.margin 200 200 1920 1080
      exampleHand.index_tip = none := by
    norm_num [mapToScreen, exampleConfig, exampleHand]
  constructor
  · simp [frameStepA, scrollCond_exampleHand, hmap]
  · simp [frameStepB, scrollCond_exampleHand, hmap]

lemma frameStepA_center_disabled_eval :
    frameStepA exampleConfig false 640 480 1920 1080 (some exampleHand) stateA0 =
      some (stateA1, []) := by
  have hmap : mapToScreen exampleConfig.margin 640 480 1920 1080
      exampleHand.index_tip = some (960, 540) := by
    norm_num [mapToScreen, exampleConfig, exampleHand, pyInt, min_def, max_def]
  simp only [frameStepA, scrollCond_exampleHand, Bool.false_eq_true, if_false,
    hmap]
  norm_num [smooth_coordinates, leftButtonStep, rightButtonStep, exampleConfig,
    exampleHand, stateA0, stateA1, pyInt, min_def, max_def, List.range_succ]

/-- C6 witness: one disabled frame with a present hand at the frame center
leaves both button flags at their initial values and emits no button
command. -/
theorem claim6_witness :
    stateA1.left_button_down = stateA0.left_button_down ∧
    stateA1.right_button_down = stateA0.right_button_down ∧
    ∀ sd : Side, Command.buttonDown sd ∉ ([] : List Command) ∧
      Command.buttonUp sd ∉ ([] : List Command) :=
  claim6_gating.2.2.1 exampleConfig 640 480 1920 1080 exampleHand stateA0
    stateA1 [] frameStepA_center_disabled_eval

/-- C9 witness: one enabled centered frame of the `MainV1.py` variant
emits only a move command, and all four button-command counts match the
(unchanged) flags. -/
theorem claim9_witness :
    (([Command.moveTo 960 540 (1/1000)] : List Command).count
        (Command.buttonDown Side.left) =
      if stateA0.left_button_down = false ∧ stateA1.left_button_down = true
      then 1 else 0) ∧
    (([Command.moveTo 960 540 (1/1000)] : List Command).count
        (Command.buttonUp Side.left) =
      if stateA0.left_button_down = true ∧ stateA1.left_button_down = false
      then 1 else 0) ∧
    (([Command.moveTo 960 540 (1/1000)] : List Command).count
        (Command.buttonDown Side.right) =
      if stateA0.right_button_down = false ∧ stateA1.right_button_down = true
      then 1 else 0) ∧
    (([Command.moveTo 960 540 (1/1000)] : List Command).count
        (Command.buttonUp Side.right) =
      if stateA0.right_button_down = true ∧ stateA1.right_button_down = false
      then 1 else 0) :=
  claim9_button_invariant.1 exampleConfig true 640 480 1920 1080
    (some exampleHand) stateA0 stateA1 [Command.moveTo 960 540 (1/1000)]
    frameStepA_center_eval

end AirMouse
